import Mathlib

/-!
Shallow embedding of the platformer core from `game.py` (pygame-zero).

Modelling conventions:
* pygame `Rect` stores integer coordinates; assigning a float to a rect
  coordinate truncates toward zero (C cast).  We model rect fields as `Int`
  and the truncating assignment as `truncToInt`.
* Velocities and timers are Python floats; every operation performed on them
  in the source (adding 0.5, comparing with 15, subtracting dt, multiplying
  by 5) is exact in binary floating point for the magnitudes that occur, so
  we model them as `ℚ`.
* Rendering, audio and input polling are external collaborators and are not
  modelled; sound side effects are dropped.
-/

namespace Platformer

def WIDTH : Int := 800

def HEIGHT : Int := 600

def GRAVITY : ℚ := 1/2

def JUMP_STRENGTH : ℚ := -12

/-- Truncation toward zero of a rational, matching the C cast pygame applies
when a float is assigned to an integer rect coordinate. -/
def truncToInt (q : ℚ) : Int := Int.tdiv q.num (q.den : Int)

/-- pygame integer rectangle: position `(x, y)` and size `(w, h)`. -/
structure Rect where
  x : Int
  y : Int
  w : Int
  h : Int
  deriving DecidableEq

def Rect.left (r : Rect) : Int := r.x

def Rect.right (r : Rect) : Int := r.x + r.w

def Rect.top (r : Rect) : Int := r.y

def Rect.bottom (r : Rect) : Int := r.y + r.h

def Rect.centerx (r : Rect) : Int := r.x + Int.tdiv r.w 2

def Rect.centery (r : Rect) : Int := r.y + Int.tdiv r.h 2

/-- pygame `Rect.colliderect`: strict overlap test (touching edges do not
collide). -/
def Rect.colliderect (a b : Rect) : Bool :=
  decide (a.x < b.x + b.w) && decide (a.y < b.y + b.h) &&
    decide (a.x + a.w > b.x) && decide (a.y + a.h > b.y)

/-- pygame assignment `r.right = v` keeps the size and moves `x`. -/
def Rect.setRight (r : Rect) (v : Int) : Rect := { r with x := v - r.w }

/-- pygame assignment `r.left = v`. -/
def Rect.setLeft (r : Rect) (v : Int) : Rect := { r with x := v }

/-- pygame assignment `r.bottom = v` keeps the size and moves `y`. -/
def Rect.setBottom (r : Rect) (v : Int) : Rect := { r with y := v - r.h }

/-- pygame assignment `r.top = v`. -/
def Rect.setTop (r : Rect) (v : Int) : Rect := { r with y := v }

/-- State of `AnimatedSprite` from `game.py` (rendering-only sprite lists are
omitted). -/
structure AnimatedSprite where
  rect : Rect
  vx : ℚ
  vy : ℚ
  on_ground : Bool
  animation_frame : ℚ
  animation_timer : ℚ
  animation_speed : ℚ
  facing_right : Bool
  deriving DecidableEq

/-- `AnimatedSprite.__init__`. -/
def AnimatedSprite.init (x y width height : Int) : AnimatedSprite :=
  { rect := ⟨x, y, width, height⟩, vx := 0, vy := 0, on_ground := false,
    animation_frame := 0, animation_timer := 0, animation_speed := 15/100,
    facing_right := true }

/-- `AnimatedSprite.update_animation`. -/
def AnimatedSprite.update_animation (s : AnimatedSprite) (dt : ℚ) : AnimatedSprite :=
  let t := s.animation_timer + dt
  if t ≥ s.animation_speed then
    { s with animation_timer := 0, animation_frame := s.animation_frame + 1 }
  else
    { s with animation_timer := t }

/-- `AnimatedSprite.apply_gravity`: add `GRAVITY` to `vy` when airborne and
clamp to the terminal fall speed 15. -/
def AnimatedSprite.apply_gravity (s : AnimatedSprite) : AnimatedSprite :=
  if s.on_ground = false then
    let vy1 := s.vy + GRAVITY
    { s with vy := if vy1 > 15 then 15 else vy1 }
  else s

/-- One iteration of the loop body of `AnimatedSprite.check_collision_x`. -/
def collideStepX (s : AnimatedSprite) (p : Rect) : AnimatedSprite :=
  if s.rect.colliderect p = true then
    if s.vx > 0 then { s with rect := s.rect.setRight p.left }
    else if s.vx < 0 then { s with rect := s.rect.setLeft p.right }
    else s
  else s

/-- `AnimatedSprite.check_collision_x`: loop over the platforms in order. -/
def AnimatedSprite.check_collision_x (s : AnimatedSprite) (platforms : List Rect) :
    AnimatedSprite :=
  platforms.foldl collideStepX s

/-- One iteration of the loop body of `AnimatedSprite.check_collision_y`. -/
def collideStepY (s : AnimatedSprite) (p : Rect) : AnimatedSprite :=
  if s.rect.colliderect p = true then
    if s.vy > 0 then
      { s with rect := s.rect.setBottom p.top, vy := 0, on_ground := true }
    else if s.vy < 0 then
      { s with rect := s.rect.setTop p.bottom, vy := 0 }
    else s
  else s

/-- `AnimatedSprite.check_collision_y`: reset `on_ground` and loop over the
platforms in order. -/
def AnimatedSprite.check_collision_y (s : AnimatedSprite) (platforms : List Rect) :
    AnimatedSprite :=
  platforms.foldl collideStepY { s with on_ground := false }

/-- `AnimatedSprite.move`: x displacement (truncated into the integer rect),
x collision pass, then y displacement and y collision pass. -/
def AnimatedSprite.move (s : AnimatedSprite) (platforms : List Rect) : AnimatedSprite :=
  let s1 := { s with rect := { s.rect with x := truncToInt ((s.rect.x : ℚ) + s.vx) } }
  let s2 := s1.check_collision_x platforms
  let s3 := { s2 with rect := { s2.rect with y := truncToInt ((s2.rect.y : ℚ) + s2.vy) } }
  s3.check_collision_y platforms

/-- `Player` state (sprite lists omitted). -/
structure Player where
  body : AnimatedSprite
  jump_requested : Bool
  move_left : Bool
  move_right : Bool
  alive : Bool
  invincible : Bool
  invincible_timer : ℚ
  deriving DecidableEq

/-- `Player.__init__`: a 40x50 body with all flags cleared. -/
def Player.init (x y : Int) : Player :=
  { body := AnimatedSprite.init x y 40 50, jump_requested := false,
    move_left := false, move_right := false, alive := true,
    invincible := false, invincible_timer := 0 }

/-- `Player.take_damage`: start the 2.0 second invincibility window unless it
is already running. -/
def Player.take_damage (p : Player) : Player × Bool :=
  if p.invincible = false then
    ({ p with invincible := true, invincible_timer := 2 }, true)
  else (p, false)

/-- `Player.update`: early return when dead, invincibility countdown, input
driven horizontal velocity, jump, gravity, movement, conditional animation,
fall death. -/
def Player.update (p : Player) (dt : ℚ) (platforms : List Rect) : Player :=
  if p.alive = false then p
  else
    let p1 :=
      if p.invincible = true then
        let t := p.invincible_timer - dt
        if t ≤ 0 then { p with invincible_timer := t, invincible := false }
        else { p with invincible_timer := t }
      else p
    let b0 := { p1.body with vx := 0 }
    let b1 := if p1.move_left = true then { b0 with vx := -4, facing_right := false } else b0
    let b2 := if p1.move_right = true then { b1 with vx := 4, facing_right := true } else b1
    let jump := p1.jump_requested && b2.on_ground
    let b3 := if jump = true then { b2 with vy := JUMP_STRENGTH } else b2
    let jr := if jump = true then false else p1.jump_requested
    let b4 := b3.apply_gravity
    let b5 := b4.move platforms
    let b6 := if b5.vx ≠ (0 : ℚ) ∨ b5.on_ground = false then b5.update_animation dt else b5
    let alive1 := if b6.rect.y > HEIGHT + 100 then false else p1.alive
    { p1 with body := b6, jump_requested := jr, alive := alive1 }

/-- `Enemy` state (sprite lists omitted). -/
structure Enemy where
  body : AnimatedSprite
  patrol_left : Int
  patrol_right : Int
  speed : ℚ
  deriving DecidableEq

/-- `Enemy.__init__`: a 35x40 body, `speed = 2`, starting to the right. -/
def Enemy.init (x y patrol_left patrol_right : Int) : Enemy :=
  { body := { AnimatedSprite.init x y 35 40 with vx := 2 },
    patrol_left := patrol_left, patrol_right := patrol_right, speed := 2 }

/-- `Enemy.update`: patrol steering, then gravity, movement and unconditional
animation. -/
def Enemy.update (e : Enemy) (dt : ℚ) (platforms : List Rect) : Enemy :=
  let b0 :=
    if e.body.rect.left ≤ e.patrol_left then
      { e.body with vx := e.speed, facing_right := true }
    else if e.body.rect.right ≥ e.patrol_right then
      { e.body with vx := -e.speed, facing_right := false }
    else e.body
  let b1 := b0.apply_gravity
  let b2 := b1.move platforms
  { e with body := b2.update_animation dt }

/-- `Coin` state (sprite lists omitted). -/
structure Coin where
  x : Int
  y : Int
  radius : Int
  collected : Bool
  animation_frame : ℚ
  deriving DecidableEq

/-- `Coin.__init__`: radius 12, not collected. -/
def Coin.init (x y : Int) : Coin :=
  { x := x, y := y, radius := 12, collected := false, animation_frame := 0 }

/-- `Coin.update`: spin the animation at five frames per second. -/
def Coin.update (c : Coin) (dt : ℚ) : Coin :=
  { c with animation_frame := c.animation_frame + dt * 5 }

/-- `Coin.check_collision`: distance based pickup.  The source computes
`dist = sqrt(dx**2 + dy**2)` as a float and tests `dist < radius + 20`;
since `dx`, `dy`, `radius` are integers of game-world magnitude the float
square root is far more precise than the unit gap between consecutive
integer squared distances, so the test is exactly the integer comparison
`dx^2 + dy^2 < (radius + 20)^2` whenever `radius + 20 > 0` (which always
holds: the radius is 12).  The equivalence with the real square root
formulation is proved in `claim_C6`. -/
def Coin.check_collision (c : Coin) (pl : Player) : Coin × Bool :=
  if c.collected = true then (c, false)
  else
    let dx := c.x - pl.body.rect.centerx
    let dy := c.y - pl.body.rect.centery
    if dx ^ 2 + dy ^ 2 < (c.radius + 20) ^ 2 then
      ({ c with collected := true }, true)
    else (c, false)

/-- Game-state machine values of the global `game_state` string. -/
inductive GameState where
  | menu
  | playing
  | gameover
  | win
  deriving DecidableEq

/-- The global mutable session state of `game.py`, gathered in a structure
(buttons, mouse position and audio flags are external collaborators). -/
structure Session where
  game_state : GameState
  score : Int
  lives : Int
  game_over_message : String
  player : Player
  enemies : List Enemy
  coins : List Coin
  platforms : List Rect
  deriving DecidableEq

/-- `init_level`: rebuild the player, the fixed platform, enemy and coin
layout, and reset score, lives and message.  `game_state` is not touched by
`init_level` in the source. -/
def init_level (s : Session) : Session :=
  { game_state := s.game_state, score := 0, lives := 3, game_over_message := "",
    player := Player.init 100 400,
    enemies := [Enemy.init 160 400 150 330, Enemy.init 460 350 450 630,
                Enemy.init 510 200 500 660],
    coins := [Coin.init 250 420, Coin.init 550 370, Coin.init 275 270,
              Coin.init 590 220, Coin.init 375 150, Coin.init 700 500],
    platforms := [⟨0, 550, 800, 50⟩, ⟨150, 450, 200, 20⟩, ⟨450, 400, 200, 20⟩,
                  ⟨200, 300, 150, 20⟩, ⟨500, 250, 180, 20⟩, ⟨300, 175, 150, 20⟩] }

/-- One iteration of the coin loop in `update`: animate the coin, test the
pickup, and add 10 to the score on success. -/
def coinStep (pl : Player) (dt : ℚ) (acc : List Coin × Int) (c : Coin) :
    List Coin × Int :=
  let c1 := c.update dt
  let r := c1.check_collision pl
  (acc.1 ++ [r.1], if r.2 = true then acc.2 + 10 else acc.2)

/-- One iteration of the enemy-damage loop in `update`: on overlap attempt
`take_damage`; on success lose a life, and on reaching zero lives kill the
player and set the game-over message. -/
def damageStep (acc : Player × Int × String) (e : Enemy) : Player × Int × String :=
  if acc.1.body.rect.colliderect e.body.rect = true then
    let td := acc.1.take_damage
    if td.2 = true then
      let lv := acc.2.1 - 1
      if lv ≤ 0 then ({ td.1 with alive := false }, lv, "Game Over! No lives left!")
      else (td.1, lv, acc.2.2)
    else (td.1, acc.2.1, acc.2.2)
  else acc

/-- The `game_state == "playing"` branch of the global `update` function:
keyboard flags, player update, enemy updates, coin loop, damage loop, win
check, death check.  `key_left`/`key_right` stand for the polled keyboard
state. -/
def stepPlaying (s : Session) (dt : ℚ) (key_left key_right : Bool) : Session :=
  let player1 :=
    Player.update { s.player with move_left := key_left, move_right := key_right }
      dt s.platforms
  let enemies1 := s.enemies.map fun e => e.update dt s.platforms
  let coinRes := s.coins.foldl (coinStep player1 dt) ([], s.score)
  let dmgRes :=
    if player1.alive = true then
      enemies1.foldl damageStep (player1, s.lives, s.game_over_message)
    else (player1, s.lives, s.game_over_message)
  let winHit := (coinRes.1.all fun c => c.collected) && dmgRes.1.alive
  let gs1 := if winHit = true then GameState.win else s.game_state
  let msg1 := if winHit = true then "You Won! Score: " ++ toString coinRes.2
              else dmgRes.2.2
  let gs2 := if dmgRes.1.alive = false then GameState.gameover else gs1
  { game_state := gs2, score := coinRes.2, lives := dmgRes.2.1,
    game_over_message := msg1, player := dmgRes.1, enemies := enemies1,
    coins := coinRes.1, platforms := s.platforms }

/-- The global `update(dt)` (menu button hovering and music startup are
external collaborators; the non-playing branches leave the session
unchanged). -/
def sessionUpdate (s : Session) (dt : ℚ) (key_left key_right : Bool) : Session :=
  if s.game_state = GameState.playing then stepPlaying s dt key_left key_right
  else s

/-! ## Helper lemmas -/

lemma foldlInvariant {α β γ : Type} (f : α → β → α) (g : α → γ)
    (h : ∀ a b, g (f a b) = g a) :
    ∀ (l : List β) (a : α), g (l.foldl f a) = g a := by
  intro l
  induction l with
  | nil => intro a; rfl
  | cons b l ih => intro a; rw [List.foldl_cons, ih, h]

lemma collideStepX_vx (a : AnimatedSprite) (b : Rect) : (collideStepX a b).vx = a.vx := by
  unfold collideStepX; repeat' split
  all_goals rfl

lemma collideStepX_vy (a : AnimatedSprite) (b : Rect) : (collideStepX a b).vy = a.vy := by
  unfold collideStepX; repeat' split
  all_goals rfl

lemma collideStepX_on_ground (a : AnimatedSprite) (b : Rect) :
    (collideStepX a b).on_ground = a.on_ground := by
  unfold collideStepX; repeat' split
  all_goals rfl

lemma collideStepX_frame (a : AnimatedSprite) (b : Rect) :
    (collideStepX a b).animation_frame = a.animation_frame := by
  unfold collideStepX; repeat' split
  all_goals rfl

lemma collideStepX_timer (a : AnimatedSprite) (b : Rect) :
    (collideStepX a b).animation_timer = a.animation_timer := by
  unfold collideStepX; repeat' split
  all_goals rfl

lemma collideStepX_speed (a : AnimatedSprite) (b : Rect) :
    (collideStepX a b).animation_speed = a.animation_speed := by
  unfold collideStepX; repeat' split
  all_goals rfl

lemma collideStepX_facing (a : AnimatedSprite) (b : Rect) :
    (collideStepX a b).facing_right = a.facing_right := by
  unfold collideStepX; repeat' split
  all_goals rfl

lemma checkX_vx (s : AnimatedSprite) (ps : List Rect) :
    (s.check_collision_x ps).vx = s.vx :=
  foldlInvariant collideStepX (fun a => a.vx) collideStepX_vx ps s

lemma checkX_vy (s : AnimatedSprite) (ps : List Rect) :
    (s.check_collision_x ps).vy = s.vy :=
  foldlInvariant collideStepX (fun a => a.vy) collideStepX_vy ps s

lemma checkX_on_ground (s : AnimatedSprite) (ps : List Rect) :
    (s.check_collision_x ps).on_ground = s.on_ground :=
  foldlInvariant collideStepX (fun a => a.on_ground) collideStepX_on_ground ps s

lemma checkX_frame (s : AnimatedSprite) (ps : List Rect) :
    (s.check_collision_x ps).animation_frame = s.animation_frame :=
  foldlInvariant collideStepX (fun a => a.animation_frame) collideStepX_frame ps s

lemma checkX_timer (s : AnimatedSprite) (ps : List Rect) :
    (s.check_collision_x ps).animation_timer = s.animation_timer :=
  foldlInvariant collideStepX (fun a => a.animation_timer) collideStepX_timer ps s

lemma checkX_speed (s : AnimatedSprite) (ps : List Rect) :
    (s.check_collision_x ps).animation_speed = s.animation_speed :=
  foldlInvariant collideStepX (fun a => a.animation_speed) collideStepX_speed ps s

lemma checkX_facing (s : AnimatedSprite) (ps : List Rect) :
    (s.check_collision_x ps).facing_right = s.facing_right :=
  foldlInvariant collideStepX (fun a => a.facing_right) collideStepX_facing ps s

lemma collideStepY_vx (a : AnimatedSprite) (b : Rect) : (collideStepY a b).vx = a.vx := by
  unfold collideStepY; repeat' split
  all_goals rfl

lemma collideStepY_frame (a : AnimatedSprite) (b : Rect) :
    (collideStepY a b).animation_frame = a.animation_frame := by
  unfold collideStepY; repeat' split
  all_goals rfl

lemma collideStepY_timer (a : AnimatedSprite) (b : Rect) :
    (collideStepY a b).animation_timer = a.animation_timer := by
  unfold collideStepY; repeat' split
  all_goals rfl

lemma collideStepY_speed (a : AnimatedSprite) (b : Rect) :
    (collideStepY a b).animation_speed = a.animation_speed := by
  unfold collideStepY; repeat' split
  all_goals rfl

lemma collideStepY_facing (a : AnimatedSprite) (b : Rect) :
    (collideStepY a b).facing_right = a.facing_right := by
  unfold collideStepY; repeat' split
  all_goals rfl

lemma checkY_vx (s : AnimatedSprite) (ps : List Rect) :
    (s.check_collision_y ps).vx = s.vx :=
  foldlInvariant collideStepY (fun a => a.vx) collideStepY_vx ps _

lemma checkY_frame (s : AnimatedSprite) (ps : List Rect) :
    (s.check_collision_y ps).animation_frame = s.animation_frame :=
  foldlInvariant collideStepY (fun a => a.animation_frame) collideStepY_frame ps _

lemma checkY_timer (s : AnimatedSprite) (ps : List Rect) :
    (s.check_collision_y ps).animation_timer = s.animation_timer :=
  foldlInvariant collideStepY (fun a => a.animation_timer) collideStepY_timer ps _

lemma checkY_speed (s : AnimatedSprite) (ps : List Rect) :
    (s.check_collision_y ps).animation_speed = s.animation_speed :=
  foldlInvariant collideStepY (fun a => a.animation_speed) collideStepY_speed ps _

lemma checkY_facing (s : AnimatedSprite) (ps : List Rect) :
    (s.check_collision_y ps).facing_right = s.facing_right :=
  foldlInvariant collideStepY (fun a => a.facing_right) collideStepY_facing ps _

lemma grav_rect (s : AnimatedSprite) : s.apply_gravity.rect = s.rect := by
  unfold AnimatedSprite.apply_gravity; split <;> rfl

lemma grav_vx (s : AnimatedSprite) : s.apply_gravity.vx = s.vx := by
  unfold AnimatedSprite.apply_gravity; split <;> rfl

lemma grav_on_ground (s : AnimatedSprite) : s.apply_gravity.on_ground = s.on_ground := by
  unfold AnimatedSprite.apply_gravity; split <;> rfl

lemma grav_frame (s : AnimatedSprite) : s.apply_gravity.animation_frame = s.animation_frame := by
  unfold AnimatedSprite.apply_gravity; split <;> rfl

lemma grav_timer (s : AnimatedSprite) : s.apply_gravity.animation_timer = s.animation_timer := by
  unfold AnimatedSprite.apply_gravity; split <;> rfl

lemma grav_speed (s : AnimatedSprite) : s.apply_gravity.animation_speed = s.animation_speed := by
  unfold AnimatedSprite.apply_gravity; split <;> rfl

lemma grav_facing (s : AnimatedSprite) : s.apply_gravity.facing_right = s.facing_right := by
  unfold AnimatedSprite.apply_gravity; split <;> rfl

lemma ua_vx (s : AnimatedSprite) (dt : ℚ) : (s.update_animation dt).vx = s.vx := by
  unfold AnimatedSprite.update_animation; dsimp only; split <;> rfl

lemma ua_vy (s : AnimatedSprite) (dt : ℚ) : (s.update_animation dt).vy = s.vy := by
  unfold AnimatedSprite.update_animation; dsimp only; split <;> rfl

lemma ua_rect (s : AnimatedSprite) (dt : ℚ) : (s.update_animation dt).rect = s.rect := by
  unfold AnimatedSprite.update_animation; dsimp only; split <;> rfl

lemma ua_on_ground (s : AnimatedSprite) (dt : ℚ) :
    (s.update_animation dt).on_ground = s.on_ground := by
  unfold AnimatedSprite.update_animation; dsimp only; split <;> rfl

lemma ua_facing (s : AnimatedSprite) (dt : ℚ) :
    (s.update_animation dt).facing_right = s.facing_right := by
  unfold AnimatedSprite.update_animation; dsimp only; split <;> rfl

lemma ua_frame (s : AnimatedSprite) (dt : ℚ) :
    (s.update_animation dt).animation_frame =
      if s.animation_timer + dt ≥ s.animation_speed then s.animation_frame + 1
      else s.animation_frame := by
  unfold AnimatedSprite.update_animation
  dsimp only
  rcases le_or_lt s.animation_speed (s.animation_timer + dt) with hle | hlt
  · simp [hle]
  · simp [not_le.mpr hlt]

lemma ua_timer (s : AnimatedSprite) (dt : ℚ) :
    (s.update_animation dt).animation_timer =
      if s.animation_timer + dt ≥ s.animation_speed then 0
      else s.animation_timer + dt := by
  unfold AnimatedSprite.update_animation
  dsimp only
  rcases le_or_lt s.animation_speed (s.animation_timer + dt) with hle | hlt
  · simp [hle]
  · simp [not_le.mpr hlt]

lemma move_vx (s : AnimatedSprite) (ps : List Rect) : (s.move ps).vx = s.vx := by
  unfold AnimatedSprite.move
  rw [checkY_vx, checkX_vx]

lemma move_frame (s : AnimatedSprite) (ps : List Rect) :
    (s.move ps).animation_frame = s.animation_frame := by
  unfold AnimatedSprite.move
  rw [checkY_frame, checkX_frame]

lemma move_timer (s : AnimatedSprite) (ps : List Rect) :
    (s.move ps).animation_timer = s.animation_timer := by
  unfold AnimatedSprite.move
  rw [checkY_timer, checkX_timer]

lemma move_speed (s : AnimatedSprite) (ps : List Rect) :
    (s.move ps).animation_speed = s.animation_speed := by
  unfold AnimatedSprite.move
  rw [checkY_speed, checkX_speed]

lemma move_facing (s : AnimatedSprite) (ps : List Rect) :
    (s.move ps).facing_right = s.facing_right := by
  unfold AnimatedSprite.move
  rw [checkY_facing, checkX_facing]

lemma truncToInt_intCast (n : ℤ) : truncToInt (n : ℚ) = n := by
  unfold truncToInt
  rw [Rat.num_intCast, Rat.den_intCast]
  simp

lemma truncToInt_add_int (a b : ℤ) : truncToInt ((a : ℚ) + (b : ℚ)) = a + b := by
  rw [← Int.cast_add, truncToInt_intCast]

lemma grav_ground (s : AnimatedSprite) (h : s.on_ground = true) : s.apply_gravity = s := by
  unfold AnimatedSprite.apply_gravity
  rw [if_neg (by simp [h])]

lemma grav_air (s : AnimatedSprite) (h : s.on_ground = false) :
    s.apply_gravity = { s with vy := min (s.vy + 1/2) 15 } := by
  unfold AnimatedSprite.apply_gravity GRAVITY
  rw [if_pos h]
  dsimp only
  congr 1
  rcases le_or_lt (s.vy + 1/2) 15 with hle | hlt
  · rw [if_neg (not_lt.mpr hle), min_eq_left hle]
  · rw [if_pos hlt, min_eq_right hlt.le]

lemma foldlStepX_zero :
    ∀ (ps : List Rect) (t : AnimatedSprite), t.vx = 0 → ps.foldl collideStepX t = t := by
  intro ps
  induction ps with
  | nil => intro t _; rfl
  | cons p ps ih =>
      intro t h
      rw [List.foldl_cons]
      have hstep : collideStepX t p = t := by
        unfold collideStepX
        rw [h]
        simp
      rw [hstep]
      exact ih t h

lemma checkX_zero (s : AnimatedSprite) (ps : List Rect) (h : s.vx = 0) :
    s.check_collision_x ps = s :=
  foldlStepX_zero ps s h

lemma foldlStepY_id :
    ∀ (ps : List Rect) (t : AnimatedSprite),
      (∀ q ∈ ps, t.rect.colliderect q = false) → ps.foldl collideStepY t = t := by
  intro ps
  induction ps with
  | nil => intro t _; rfl
  | cons p ps ih =>
      intro t h
      rw [List.foldl_cons]
      have hstep : collideStepY t p = t := by
        unfold collideStepY
        rw [h p (by simp)]
        simp
      rw [hstep]
      exact ih t fun q hq => h q (by simp [hq])

lemma checkY_none (s : AnimatedSprite) (ps : List Rect)
    (h : ∀ q ∈ ps, s.rect.colliderect q = false) :
    s.check_collision_y ps = { s with on_ground := false } := by
  unfold AnimatedSprite.check_collision_y
  exact foldlStepY_id ps _ h

lemma checkY_single_pos (s : AnimatedSprite) (p : Rect)
    (hc : s.rect.colliderect p = true) (hv : s.vy > 0) :
    s.check_collision_y [p] =
      { s with rect := s.rect.setBottom p.top, vy := 0, on_ground := true } := by
  unfold AnimatedSprite.check_collision_y
  rw [List.foldl_cons, List.foldl_nil]
  unfold collideStepY
  rw [show ({ s with on_ground := false } : AnimatedSprite).rect = s.rect from rfl, hc]
  simp [hv]

lemma checkY_single_neg (s : AnimatedSprite) (p : Rect)
    (hc : s.rect.colliderect p = true) (hv : s.vy < 0) :
    s.check_collision_y [p] =
      { s with rect := s.rect.setTop p.bottom, vy := 0, on_ground := false } := by
  unfold AnimatedSprite.check_collision_y
  rw [List.foldl_cons, List.foldl_nil]
  unfold collideStepY
  rw [show ({ s with on_ground := false } : AnimatedSprite).rect = s.rect from rfl, hc]
  simp [hv, not_lt.mpr hv.le, lt_irrefl]

lemma take_damage_inv (q : Player) (hqi : q.invincible = true) :
    q.take_damage = (q, false) := by
  unfold Player.take_damage
  rw [if_neg (by simp [hqi])]

lemma damageStep_inv (acc : Player × Int × String) (e : Enemy)
    (hi : acc.1.invincible = true) : damageStep acc e = acc := by
  unfold damageStep
  split
  · rw [take_damage_inv _ hi]
    dsimp only
    rw [if_neg (by simp)]
  · rfl

lemma move_land (s : AnimatedSprite) (p : Rect)
    (hvx : s.vx = 0) (hvy : s.vy > 0)
    (hx1 : p.x < s.rect.x + s.rect.w) (hx2 : s.rect.x < p.x + p.w)
    (hy1 : truncToInt ((s.rect.y : ℚ) + s.vy) + s.rect.h > p.y)
    (hy2 : truncToInt ((s.rect.y : ℚ) + s.vy) < p.y + p.h) :
    (s.move [p]).on_ground = true ∧ (s.move [p]).vy = 0 ∧
    (s.move [p]).rect.bottom = p.top := by
  unfold AnimatedSprite.move
  dsimp only
  rw [show truncToInt ((s.rect.x : ℚ) + s.vx) = s.rect.x by
        rw [hvx, add_zero, truncToInt_intCast]]
  rw [checkX_zero { s with rect := { s.rect with x := s.rect.x } } [p] hvx]
  dsimp only
  rw [checkY_single_pos
        { s with rect := { s.rect with y := truncToInt ((s.rect.y : ℚ) + s.vy) } } p ?hc ?hv]
  case hv => exact hvy
  case hc =>
    simp only [Rect.colliderect, Bool.and_eq_true, decide_eq_true_eq]
    refine ⟨⟨⟨?_, ?_⟩, ?_⟩, ?_⟩ <;> omega
  refine ⟨rfl, rfl, ?_⟩
  simp only [Rect.bottom, Rect.setBottom, Rect.top]
  omega


lemma ite_ua_vy (c : Prop) [Decidable c] (a : AnimatedSprite) (dt : ℚ) :
    (if c then a.update_animation dt else a).vy = a.vy := by
  split
  · exact ua_vy a dt
  · rfl

lemma ite_ua_on_ground (c : Prop) [Decidable c] (a : AnimatedSprite) (dt : ℚ) :
    (if c then a.update_animation dt else a).on_ground = a.on_ground := by
  split
  · exact ua_on_ground a dt
  · rfl

lemma move_jump_clear (b : AnimatedSprite) (ps : List Rect)
    (hvx : b.vx = 0) (hvy : b.vy = -12)
    (hnc : ∀ q ∈ ps, Rect.colliderect { b.rect with y := b.rect.y - 12 } q = false) :
    (b.move ps).vy = -12 ∧ (b.move ps).on_ground = false := by
  unfold AnimatedSprite.move
  dsimp only
  rw [show truncToInt ((b.rect.x : ℚ) + b.vx) = b.rect.x by
        rw [hvx, add_zero, truncToInt_intCast]]
  rw [checkX_zero { b with rect := { b.rect with x := b.rect.x } } ps hvx]
  dsimp only
  rw [hvy]
  rw [show truncToInt ((b.rect.y : ℚ) + (-12 : ℚ)) = b.rect.y - 12 by
        rw [show ((b.rect.y : ℚ) + (-12 : ℚ)) = ((b.rect.y - 12 : ℤ) : ℚ) by push_cast; ring,
          truncToInt_intCast]]
  rw [checkY_none
        { rect := ⟨b.rect.x, b.rect.y - 12, b.rect.w, b.rect.h⟩, vx := b.vx, vy := -12,
          on_ground := b.on_ground, animation_frame := b.animation_frame,
          animation_timer := b.animation_timer, animation_speed := b.animation_speed,
          facing_right := b.facing_right } ps (fun q hq => hnc q hq)]
  exact ⟨rfl, rfl⟩

lemma update_jump_flag (p : Player) (dt : ℚ) (ps : List Rect) (ha : p.alive = true) :
    (p.update dt ps).jump_requested =
      if (p.jump_requested && p.body.on_ground) = true then false
      else p.jump_requested := by
  unfold Player.update
  rw [if_neg (by simp [ha])]
  dsimp only
  cases hinv : p.invincible <;> cases hml : p.move_left <;> cases hmr : p.move_right <;>
    simp [hinv, hml, hmr, apply_ite]

lemma update_body_shape (p : Player) (dt : ℚ) (ps : List Rect) (ha : p.alive = true) :
    ∃ B : AnimatedSprite,
      (p.update dt ps).body =
        (if B.vx ≠ (0 : ℚ) ∨ B.on_ground = false then B.update_animation dt else B) ∧
      B.animation_frame = p.body.animation_frame ∧
      B.animation_timer = p.body.animation_timer ∧
      B.animation_speed = p.body.animation_speed := by
  unfold Player.update
  rw [if_neg (by simp [ha])]
  dsimp only
  refine ⟨_, rfl, ?_, ?_, ?_⟩
  · rw [move_frame, grav_frame]
    repeat' split
    all_goals rfl
  · rw [move_timer, grav_timer]
    repeat' split
    all_goals rfl
  · rw [move_speed, grav_speed]
    repeat' split
    all_goals rfl

lemma update_jump_body (p : Player) (dt : ℚ) (ps : List Rect) (ha : p.alive = true)
    (hj : p.jump_requested = true) (hg : p.body.on_ground = true)
    (hml : p.move_left = false) (hmr : p.move_right = false) :
    (p.update dt ps).body =
      (if ((({ p.body with vx := 0, vy := JUMP_STRENGTH } : AnimatedSprite).apply_gravity.move
            ps).vx ≠ (0 : ℚ) ∨
          (({ p.body with vx := 0, vy := JUMP_STRENGTH } : AnimatedSprite).apply_gravity.move
            ps).on_ground = false)
       then ((({ p.body with vx := 0, vy := JUMP_STRENGTH } : AnimatedSprite).apply_gravity.move
            ps).update_animation dt)
       else (({ p.body with vx := 0, vy := JUMP_STRENGTH } : AnimatedSprite).apply_gravity.move
            ps)) := by
  unfold Player.update
  rw [if_neg (by simp [ha])]
  dsimp only
  cases hinv : p.invincible
  case false =>
    simp only [hinv, hml, hmr, hj, hg, Bool.false_eq_true, if_false, Bool.and_self, if_true]
  case true =>
    simp only [hinv, hml, hmr, hj, hg, Bool.false_eq_true, if_false, Bool.and_self, if_true]
    split <;>
      simp only [hml, hmr, hj, hg, Bool.false_eq_true, if_false, Bool.and_self, if_true]

/-! ## Claim theorems -/

section

attribute [local semireducible] Rat.add Rat.mul Rat.inv Rat.sub Rat.ofScientific

/-- C2: for every body with `on_ground` false, `apply_gravity` sets `vy` to
`min (vy + 0.5) 15`, so the post-state `vy` is at most 15 even when the
pre-state `vy` exceeds 15; for every body with `on_ground` true,
`apply_gravity` leaves the body (in particular `vy`) unchanged. -/
theorem claim_C2 (s : AnimatedSprite) :
    (s.on_ground = false →
      s.apply_gravity = { s with vy := min (s.vy + 1/2) 15 } ∧
      s.apply_gravity.vy ≤ 15) ∧
    (s.on_ground = true → s.apply_gravity = s) := by
  constructor
  · intro h
    have hg := grav_air s h
    refine ⟨hg, ?_⟩
    rw [hg]
    exact min_le_right _ _
  · exact grav_ground s

/-- Witness for C2 at a concrete airborne body already falling at speed 20:
gravity clamps `vy` to 15. -/
theorem claim_C2_witness :
    (AnimatedSprite.init 0 0 10 10).on_ground = false ∧
    ({ AnimatedSprite.init 0 0 10 10 with vy := 20 } : AnimatedSprite).apply_gravity.vy ≤ 15 ∧
    ({ AnimatedSprite.init 0 0 10 10 with vy := 20 } : AnimatedSprite).apply_gravity.vy = 15 :=
  ⟨rfl, ((claim_C2 { AnimatedSprite.init 0 0 10 10 with vy := 20 }).1 rfl).2, by decide⟩

/-- C4: `take_damage` returns false and changes nothing when already
invincible; otherwise it sets `invincible := true`, `invincible_timer := 2.0`
and returns true.  For two enemy-overlap damage attempts in one tick of the
session loop the first decrements lives by exactly 1 and the second is a
no-op on lives (the player is invincible by then, so its `take_damage`
returns false). -/
theorem claim_C4 (p : Player) (e1 e2 : Enemy) (lv : Int) (msg : String)
    (hinv : p.invincible = false)
    (h1 : p.body.rect.colliderect e1.body.rect = true)
    (h2 : p.body.rect.colliderect e2.body.rect = true) :
    (∀ q : Player, q.invincible = true → q.take_damage = (q, false)) ∧
    p.take_damage = ({ p with invincible := true, invincible_timer := 2 }, true) ∧
    (damageStep (p, lv, msg) e1).2.1 = lv - 1 ∧
    ((damageStep (p, lv, msg) e1).1).take_damage.2 = false ∧
    (damageStep (damageStep (p, lv, msg) e1) e2).2.1 = lv - 1 := by
  have htd : p.take_damage = ({ p with invincible := true, invincible_timer := 2 }, true) := by
    unfold Player.take_damage
    rw [if_pos hinv]
  have hd1 : damageStep (p, lv, msg) e1 =
      if lv - 1 ≤ 0 then
        (({ p with invincible := true, invincible_timer := 2, alive := false } : Player),
          lv - 1, "Game Over! No lives left!")
      else (({ p with invincible := true, invincible_timer := 2 } : Player), lv - 1, msg) := by
    unfold damageStep
    dsimp only
    rw [h1, if_pos rfl, htd]
    dsimp only
    rw [if_pos rfl]
  have hinv1 : (damageStep (p, lv, msg) e1).1.invincible = true := by
    rw [hd1]; split <;> rfl
  have hlv1 : (damageStep (p, lv, msg) e1).2.1 = lv - 1 := by
    rw [hd1]; split <;> rfl
  have htd1 : ((damageStep (p, lv, msg) e1).1).take_damage.2 = false := by
    rw [take_damage_inv _ hinv1]
  refine ⟨take_damage_inv, htd, hlv1, htd1, ?_⟩
  rw [damageStep_inv _ e2 hinv1]
  exact hlv1

/-- Witness for C4: a fresh player overlapped twice by the same enemy with
3 lives loses exactly one life, and the second attempt returns false. -/
theorem claim_C4_witness :
    (Player.init 100 100).invincible = false ∧
    (Player.init 100 100).body.rect.colliderect (Enemy.init 110 110 0 500).body.rect = true ∧
    (damageStep (Player.init 100 100, 3, "") (Enemy.init 110 110 0 500)).2.1 = 2 ∧
    ((damageStep (Player.init 100 100, 3, "") (Enemy.init 110 110 0 500)).1).take_damage.2
      = false ∧
    (damageStep (damageStep (Player.init 100 100, 3, "") (Enemy.init 110 110 0 500))
      (Enemy.init 110 110 0 500)).2.1 = 2 := by
  have h := claim_C4 (Player.init 100 100) (Enemy.init 110 110 0 500)
    (Enemy.init 110 110 0 500) 3 "" rfl (by decide) (by decide)
  exact ⟨rfl, by decide, h.2.2.1, h.2.2.2.1, h.2.2.2.2⟩

/-- C5: a coin's `collected` flag is monotonic (animation updates never touch
it and `check_collision` never clears it), and `check_collision` on an
already-collected coin returns false, leaves the coin unchanged, and the
session loop iteration `coinStep` leaves the score unchanged, no matter how
often it is repeated (the coin is a fixed point). -/
theorem claim_C5 (c : Coin) (pl : Player) (dt : ℚ) (cs : List Coin) (sc : Int) :
    (c.update dt).collected = c.collected ∧
    (c.collected = true → c.check_collision pl = (c, false)) ∧
    (c.collected = true → ((c.check_collision pl).1).collected = true) ∧
    (c.collected = true → coinStep pl dt (cs, sc) c = (cs ++ [c.update dt], sc)) := by
  have hfix : c.collected = true → c.check_collision pl = (c, false) := by
    intro h
    unfold Coin.check_collision
    rw [if_pos h]
  refine ⟨rfl, hfix, ?_, ?_⟩
  · intro h
    rw [hfix h, h]
  · intro h
    unfold coinStep
    dsimp only
    have hfix2 : (c.update dt).check_collision pl = (c.update dt, false) := by
      unfold Coin.check_collision
      rw [if_pos (show (c.update dt).collected = true from h)]
    rw [hfix2]
    simp

/-- Witness for C5: a concrete collected coin is a fixed point of
`check_collision` and `coinStep` awards no score for it. -/
theorem claim_C5_witness :
    ({ Coin.init 250 420 with collected := true } : Coin).collected = true ∧
    ({ Coin.init 250 420 with collected := true } : Coin).check_collision (Player.init 100 400)
      = ({ Coin.init 250 420 with collected := true }, false) ∧
    (coinStep (Player.init 100 400) 1 ([], 7) { Coin.init 250 420 with collected := true }).2
      = 7 := by
  have h := claim_C5 { Coin.init 250 420 with collected := true } (Player.init 100 400) 1 [] 7
  exact ⟨rfl, h.2.1 rfl, by rw [h.2.2.2 rfl]⟩

/-- C9: `init_level` is idempotent and produces the same platform, enemy and
coin layout on every call, with `score = 0`, `lives = 3` and an empty
end-of-game message. -/
theorem claim_C9 (s t : Session) :
    init_level (init_level s) = init_level s ∧
    (init_level s).platforms = (init_level t).platforms ∧
    (init_level s).enemies = (init_level t).enemies ∧
    (init_level s).coins = (init_level t).coins ∧
    (init_level s).score = 0 ∧
    (init_level s).lives = 3 ∧
    (init_level s).game_over_message = "" :=
  ⟨rfl, rfl, rfl, rfl, rfl, rfl, rfl⟩


/-- C3: the vertical collision pass first clears `on_ground`, then for each
overlapping platform in list order snaps the body (bottom to platform top,
zeroing `vy` and grounding, when falling; top to platform bottom, zeroing
`vy`, when rising).  In particular `apply_gravity` followed by one `move`
against a platform directly below within fall range ends with
`on_ground = true` and `vy = 0` (and the body sitting on the platform). -/
theorem claim_C3 (s : AnimatedSprite) (p : Rect) (ps : List Rect) :
    ((∀ q ∈ ps, s.rect.colliderect q = false) →
      s.check_collision_y ps = { s with on_ground := false }) ∧
    (s.rect.colliderect p = true → s.vy > 0 →
      s.check_collision_y [p] =
        { s with rect := s.rect.setBottom p.top, vy := 0, on_ground := true }) ∧
    (s.rect.colliderect p = true → s.vy < 0 →
      s.check_collision_y [p] =
        { s with rect := s.rect.setTop p.bottom, vy := 0, on_ground := false }) ∧
    (s.on_ground = false → s.vx = 0 → 0 ≤ s.vy →
      p.x < s.rect.x + s.rect.w → s.rect.x < p.x + p.w →
      truncToInt ((s.rect.y : ℚ) + min (s.vy + 1/2) 15) + s.rect.h > p.y →
      truncToInt ((s.rect.y : ℚ) + min (s.vy + 1/2) 15) < p.y + p.h →
      ((s.apply_gravity.move [p]).on_ground = true ∧
       (s.apply_gravity.move [p]).vy = 0 ∧
       (s.apply_gravity.move [p]).rect.bottom = p.top)) := by
  refine ⟨checkY_none s ps, checkY_single_pos s p, checkY_single_neg s p, ?_⟩
  intro hg hvx hvy hx1 hx2 hy1 hy2
  rw [grav_air s hg]
  exact move_land _ p hvx (lt_min (by linarith) (by norm_num)) hx1 hx2 hy1 hy2

/-- Concrete body for the C3 witness. -/
def witnessBody : AnimatedSprite :=
  { rect := ⟨100, 84, 40, 50⟩, vx := 0, vy := 5/2, on_ground := false,
    animation_frame := 0, animation_timer := 0, animation_speed := 15/100,
    facing_right := true }

/-- Witness for C3: a 40x50 body at `y = 84` falling at 2.5 onto the platform
`(0, 135, 800, 50)` lands on it with `vy = 0`. -/
theorem claim_C3_witness :
    ((witnessBody.apply_gravity.move [⟨0, 135, 800, 50⟩]).on_ground = true ∧
     (witnessBody.apply_gravity.move [⟨0, 135, 800, 50⟩]).vy = 0 ∧
     (witnessBody.apply_gravity.move [⟨0, 135, 800, 50⟩]).rect.bottom = 135) :=
  (claim_C3 witnessBody ⟨0, 135, 800, 50⟩ []).2.2.2 rfl rfl (by decide)
    (by decide) (by decide) (by decide) (by decide)

/-- C6: on an uncollected coin, `check_collision` succeeds exactly when the
Euclidean distance from the coin's center to the player's rectangle center is
strictly below `radius + 20`; on success the coin is marked collected and the
session loop awards 10 points, otherwise nothing changes. -/
theorem claim_C6 (c : Coin) (pl : Player) (h : c.collected = false)
    (hr : (0 : ℤ) < c.radius + 20) :
    ((c.check_collision pl).2 = true ↔
      Real.sqrt (((c.x - pl.body.rect.centerx) ^ 2 +
          (c.y - pl.body.rect.centery) ^ 2 : ℤ) : ℝ) < ((c.radius + 20 : ℤ) : ℝ)) ∧
    ((c.check_collision pl).2 = true →
      (c.check_collision pl).1 = { c with collected := true }) ∧
    ((c.check_collision pl).2 = false → (c.check_collision pl).1 = c) ∧
    (∀ (cs : List Coin) (sc : Int) (dt : ℚ), (c.check_collision pl).2 = true →
      (coinStep pl dt (cs, sc) c).2 = sc + 10) := by
  have hrR : (0 : ℝ) < ((c.radius + 20 : ℤ) : ℝ) := by exact_mod_cast hr
  have hcheck : c.check_collision pl =
      if (c.x - pl.body.rect.centerx) ^ 2 + (c.y - pl.body.rect.centery) ^ 2
          < (c.radius + 20) ^ 2 then ({ c with collected := true }, true)
      else (c, false) := by
    unfold Coin.check_collision
    rw [if_neg (by simp [h])]
  rcases lt_or_ge ((c.x - pl.body.rect.centerx) ^ 2 + (c.y - pl.body.rect.centery) ^ 2)
      ((c.radius + 20) ^ 2) with hlt | hge
  · have hc2 : c.check_collision pl = ({ c with collected := true }, true) := by
      rw [hcheck, if_pos hlt]
    refine ⟨?_, ?_, ?_, ?_⟩
    · rw [hc2]
      exact iff_of_true rfl ((Real.sqrt_lt' hrR).mpr (by exact_mod_cast hlt))
    · intro _
      rw [hc2]
    · intro hfalse
      rw [hc2] at hfalse
      exact absurd hfalse (by simp)
    · intro cs sc dt _
      have hup : (c.update dt).check_collision pl = ({ c.update dt with collected := true }, true) := by
        unfold Coin.check_collision Coin.update
        dsimp only
        rw [if_neg (by simp [h]), if_pos hlt]
      unfold coinStep
      dsimp only
      rw [hup]
      simp
  · have hc2 : c.check_collision pl = (c, false) := by
      rw [hcheck, if_neg (not_lt.mpr hge)]
    refine ⟨?_, ?_, ?_, ?_⟩
    · rw [hc2]
      refine iff_of_false (by simp) ?_
      rw [Real.sqrt_lt' hrR]
      exact not_lt.mpr (by exact_mod_cast hge)
    · intro htrue
      rw [hc2] at htrue
      exact absurd htrue (by simp)
    · intro _
      rw [hc2]
    · intro cs sc dt htrue
      rw [hc2] at htrue
      exact absurd htrue (by simp)

/-- Witness for C6: the spec scenario, a player whose body center is at
distance 15 from a coin of radius 12 (offsets 9 and 12), collects it and the
session loop iteration awards 10 points. -/
theorem claim_C6_witness :
    (Coin.init 0 0).collected = false ∧ (0 : ℤ) < (Coin.init 0 0).radius + 20 ∧
    ((Coin.init 0 0).check_collision (Player.init (-11) (-13))).2 = true ∧
    (coinStep (Player.init (-11) (-13)) 1 ([], 0) (Coin.init 0 0)).2 = 0 + 10 := by
  have h := claim_C6 (Coin.init 0 0) (Player.init (-11) (-13)) rfl (by decide)
  have harg : ((Coin.init 0 0).x - (Player.init (-11) (-13)).body.rect.centerx) ^ 2 +
      ((Coin.init 0 0).y - (Player.init (-11) (-13)).body.rect.centery) ^ 2 = (225 : ℤ) := by
    decide
  have hsq : Real.sqrt ((((Coin.init 0 0).x - (Player.init (-11) (-13)).body.rect.centerx) ^ 2 +
      ((Coin.init 0 0).y - (Player.init (-11) (-13)).body.rect.centery) ^ 2 : ℤ) : ℝ)
      < (((Coin.init 0 0).radius + 20 : ℤ) : ℝ) := by
    rw [harg]
    exact (Real.sqrt_lt' (by norm_num [Coin.init])).mpr (by norm_num [Coin.init])
  have htrue := h.1.mpr hsq
  exact ⟨rfl, by decide, htrue, h.2.2.2 [] 0 1 htrue⟩

/-- C8: each enemy tick first steers (reverse to `+speed` facing right at or
beyond the left patrol bound, else to `-speed` facing left at or beyond the
right bound, else keep velocity and facing), and only then applies gravity
and movement, while the animation advances unconditionally (its timer rule
fires regardless of velocity or ground state). -/
theorem claim_C8 (e : Enemy) (dt : ℚ) (ps : List Rect) :
    (e.body.rect.left ≤ e.patrol_left →
      (e.update dt ps).body.vx = e.speed ∧
      (e.update dt ps).body.facing_right = true) ∧
    (e.body.rect.left > e.patrol_left → e.body.rect.right ≥ e.patrol_right →
      (e.update dt ps).body.vx = -e.speed ∧
      (e.update dt ps).body.facing_right = false) ∧
    (e.body.rect.left > e.patrol_left → e.body.rect.right < e.patrol_right →
      (e.update dt ps).body.vx = e.body.vx ∧
      (e.update dt ps).body.facing_right = e.body.facing_right) ∧
    ((e.update dt ps).body.animation_frame =
      if e.body.animation_timer + dt ≥ e.body.animation_speed
      then e.body.animation_frame + 1 else e.body.animation_frame) ∧
    (e.update dt ps).patrol_left = e.patrol_left ∧
    (e.update dt ps).patrol_right = e.patrol_right := by
  unfold Enemy.update
  dsimp only
  refine ⟨?_, ?_, ?_, ?_, rfl, rfl⟩
  · intro h
    rw [if_pos h]
    constructor
    · rw [ua_vx, move_vx, grav_vx]
    · rw [ua_facing, move_facing, grav_facing]
  · intro h1 h2
    rw [if_neg (not_le.mpr h1), if_pos h2]
    constructor
    · rw [ua_vx, move_vx, grav_vx]
    · rw [ua_facing, move_facing, grav_facing]
  · intro h1 h2
    rw [if_neg (not_le.mpr h1), if_neg (not_le.mpr h2)]
    constructor
    · rw [ua_vx, move_vx, grav_vx]
    · rw [ua_facing, move_facing, grav_facing]
  · rw [ua_frame, move_timer, grav_timer, move_speed, grav_speed, move_frame, grav_frame]
    split
    · split <;> rfl
    · split <;> rfl

/-- Witness for C8: the spec scenario, an enemy with patrol bounds 150..330
whose right edge has reached 330, reverses to `vx = -2` facing left. -/
theorem claim_C8_witness :
    (Enemy.init 295 400 150 330).body.rect.left > 150 ∧
    (Enemy.init 295 400 150 330).body.rect.right ≥ 330 ∧
    ((Enemy.init 295 400 150 330).update 1 []).body.vx = -2 ∧
    ((Enemy.init 295 400 150 330).update 1 []).body.facing_right = false := by
  have h := (claim_C8 (Enemy.init 295 400 150 330) 1 []).2.1 (by decide) (by decide)
  exact ⟨by decide, by decide, h.1, h.2⟩


/-- Concrete player for the C7 counterexample: falling at 2.5 while the
right-movement key is held, two ticks above a platform. -/
def pC7 : Player :=
  { body := { rect := ⟨50, 48, 40, 50⟩, vx := 0, vy := 5/2, on_ground := false,
              animation_frame := 0, animation_timer := 0, animation_speed := 15/100,
              facing_right := true },
    jump_requested := false, move_left := false, move_right := true,
    alive := true, invincible := false, invincible_timer := 0 }

/-- Concrete player for the C7 witness: the same fall without any movement
key held. -/
def pW7 : Player := { pC7 with move_right := false }

/-- Counterexample to C7 as stated: in the tick in which `pC7` lands while
moving right, the post-tick state has `vy = 0` and `on_ground = true` (so the
claimed condition `vy ≠ 0` or airborne is false), yet the animation frame
advances, because the code tests `vx != 0`, not `vy != 0`. -/
theorem claim_C7_counterexample :
    (Player.update pC7 (2/10) [⟨0, 100, 200, 20⟩]).body.vy = 0 ∧
    (Player.update pC7 (2/10) [⟨0, 100, 200, 20⟩]).body.on_ground = true ∧
    (Player.update pC7 (2/10) [⟨0, 100, 200, 20⟩]).body.animation_frame =
      pC7.body.animation_frame + 1 := by
  refine ⟨by decide, by decide, by decide⟩

/-- C7 (amended): in each update tick of a living player the animation timer
is advanced if and only if, after the physics step, `vx ≠ 0` or the player is
airborne (`on_ground = false`); in every other case the animation timer and
frame counter are unchanged (frozen).  (The claim said `vy ≠ 0`; the code
tests `vx != 0`.) -/
theorem claim_C7 (p : Player) (dt : ℚ) (ps : List Rect) (ha : p.alive = true) :
    ((p.update dt ps).body.vx ≠ 0 ∨ (p.update dt ps).body.on_ground = false →
      (p.update dt ps).body.animation_frame =
        (if p.body.animation_timer + dt ≥ p.body.animation_speed
         then p.body.animation_frame + 1 else p.body.animation_frame) ∧
      (p.update dt ps).body.animation_timer =
        (if p.body.animation_timer + dt ≥ p.body.animation_speed
         then 0 else p.body.animation_timer + dt)) ∧
    ((p.update dt ps).body.vx = 0 ∧ (p.update dt ps).body.on_ground = true →
      (p.update dt ps).body.animation_frame = p.body.animation_frame ∧
      (p.update dt ps).body.animation_timer = p.body.animation_timer) := by
  obtain ⟨B, hB, hf, ht, hs⟩ := update_body_shape p dt ps ha
  rw [hB]
  by_cases hcond : B.vx ≠ (0 : ℚ) ∨ B.on_ground = false
  · rw [if_pos hcond]
    constructor
    · intro _
      rw [ua_frame, ua_timer, hf, ht, hs]
      exact ⟨rfl, rfl⟩
    · intro hfr
      obtain ⟨h1, h2⟩ := hfr
      rw [ua_vx] at h1
      rw [ua_on_ground] at h2
      exfalso
      rcases hcond with hvx | hog
      · exact hvx h1
      · rw [h2] at hog
        exact Bool.noConfusion hog
  · rw [if_neg hcond]
    constructor
    · intro hcontra
      exact absurd hcontra hcond
    · intro _
      exact ⟨hf, ht⟩

/-- Witness for C7 (amended): `pW7` lands without a movement key held, ends
with `vx = 0` and `on_ground = true`, and its animation frame is frozen even
though `dt = 0.2` exceeds the animation period. -/
theorem claim_C7_witness :
    pW7.alive = true ∧
    (Player.update pW7 (2/10) [⟨0, 100, 200, 20⟩]).body.vx = 0 ∧
    (Player.update pW7 (2/10) [⟨0, 100, 200, 20⟩]).body.on_ground = true ∧
    (Player.update pW7 (2/10) [⟨0, 100, 200, 20⟩]).body.animation_frame =
      pW7.body.animation_frame :=
  ⟨rfl, by decide, by decide,
    ((claim_C7 pW7 (2/10) [⟨0, 100, 200, 20⟩] rfl).2 ⟨by decide, by decide⟩).1⟩

/-- C10: a jump requested while airborne is not discarded: the update leaves
`jump_requested` set, and on the first subsequent tick with the player on the
ground the jump executes, setting `vy = -12` (the body clears the platforms)
and consuming the flag. -/
theorem claim_C10 (p : Player) (dt : ℚ) (ps : List Rect) :
    (p.alive = true → p.jump_requested = true → p.body.on_ground = false →
      (p.update dt ps).jump_requested = true) ∧
    (p.alive = true → p.jump_requested = true → p.body.on_ground = true →
      (p.update dt ps).jump_requested = false) ∧
    (p.alive = true → p.jump_requested = true → p.body.on_ground = true →
      p.move_left = false → p.move_right = false →
      (∀ q ∈ ps, Rect.colliderect { p.body.rect with y := p.body.rect.y - 12 } q = false) →
      (p.update dt ps).body.vy = -12 ∧ (p.update dt ps).body.on_ground = false) := by
  refine ⟨?_, ?_, ?_⟩
  · intro ha hj hg
    rw [update_jump_flag p dt ps ha, hj, hg]
    simp
  · intro ha hj hg
    rw [update_jump_flag p dt ps ha, hj, hg]
    simp
  · intro ha hj hg hml hmr hnc
    rw [update_jump_body p dt ps ha hj hg hml hmr]
    rw [ite_ua_vy, ite_ua_on_ground]
    rw [grav_ground _ (by exact hg)]
    exact move_jump_clear _ ps rfl rfl (fun q hq => hnc q hq)

/-- Concrete player for the C10 witness: standing on ground with a buffered
jump request and no movement keys. -/
def pJ : Player :=
  { body := { rect := ⟨100, 100, 40, 50⟩, vx := 0, vy := 0, on_ground := true,
              animation_frame := 0, animation_timer := 0, animation_speed := 15/100,
              facing_right := true },
    jump_requested := true, move_left := false, move_right := false,
    alive := true, invincible := false, invincible_timer := 0 }

/-- Witness for C10: the airborne copy of `pJ` keeps the buffered request,
and `pJ` itself executes the jump (`vy = -12`, flag cleared, airborne). -/
theorem claim_C10_witness :
    pJ.alive = true ∧ pJ.jump_requested = true ∧ pJ.body.on_ground = true ∧
    (Player.update { pJ with body := { pJ.body with on_ground := false } } 1 []).jump_requested
      = true ∧
    (Player.update pJ 1 []).jump_requested = false ∧
    (Player.update pJ 1 []).body.vy = -12 ∧
    (Player.update pJ 1 []).body.on_ground = false := by
  have h1 := (claim_C10 { pJ with body := { pJ.body with on_ground := false } } 1 []).1
    rfl rfl rfl
  have h2 := (claim_C10 pJ 1 []).2.1 rfl rfl rfl
  have h3 := (claim_C10 pJ 1 []).2.2 rfl rfl rfl rfl rfl (by simp)
  exact ⟨rfl, rfl, rfl, h1, h2, h3.1, h3.2⟩

/-- C1: in the playing state, at the end of any tick in which every coin is
collected, a living player wins (the message carrying the final score) and a
dead player gets the game-over state, never the win state. -/
theorem claim_C1 (s : Session) (dt : ℚ) (kl kr : Bool)
    (hplay : s.game_state = GameState.playing)
    (hall : ((sessionUpdate s dt kl kr).coins.all fun c => c.collected) = true) :
    ((sessionUpdate s dt kl kr).player.alive = true →
      (sessionUpdate s dt kl kr).game_state = GameState.win ∧
      (sessionUpdate s dt kl kr).game_over_message =
        "You Won! Score: " ++ toString (sessionUpdate s dt kl kr).score) ∧
    ((sessionUpdate s dt kl kr).player.alive = false →
      (sessionUpdate s dt kl kr).game_state = GameState.gameover) := by
  unfold sessionUpdate at hall ⊢
  rw [if_pos hplay] at hall ⊢
  unfold stepPlaying at hall ⊢
  dsimp only at hall ⊢
  constructor
  · intro halive
    rw [halive, hall]
    constructor
    · rw [if_neg (by simp), if_pos (by simp)]
    · rw [if_pos (by simp)]
  · intro hdead
    rw [hdead]
    rw [if_pos rfl]

/-- Concrete session for the C1 witness: playing, every coin already
collected, no enemies, the player safely in the air. -/
def sW1 : Session :=
  { game_state := GameState.playing, score := 0, lives := 3, game_over_message := "",
    player := Player.init 100 400, enemies := [],
    coins := [{ Coin.init 250 420 with collected := true }], platforms := [] }

/-- Witness for C1: one tick on `sW1` ends with every coin collected and the
player alive, and the session is in the win state with the score message. -/
theorem claim_C1_witness :
    sW1.game_state = GameState.playing ∧
    ((sessionUpdate sW1 1 false false).coins.all fun c => c.collected) = true ∧
    (sessionUpdate sW1 1 false false).player.alive = true ∧
    (sessionUpdate sW1 1 false false).game_state = GameState.win ∧
    (sessionUpdate sW1 1 false false).game_over_message =
      "You Won! Score: " ++ toString (sessionUpdate sW1 1 false false).score :=
  ⟨rfl, by decide, by decide,
    ((claim_C1 sW1 1 false false rfl (by decide)).1 (by decide)).1,
    ((claim_C1 sW1 1 false false rfl (by decide)).1 (by decide)).2⟩

end

end Platformer
